import Mathlib

/-!
# Verification of the flights data layer (`datalayer/datalayer.go`)

A shallow embedding of the repository's data-access layer over DynamoDB.

The repository code under `src/datalayer/datalayer.go` is translated
definition by definition.  The backing store (the AWS DynamoDB client) is
an external collaborator and is modelled from the spec's adapter
semantics (spec §4.1): tables are lists of attribute-map items, point
operations address items by a partition-key attribute, and `UpdateItem`
with `ADD`/`DELETE` performs the store's native atomic string-set update
(upsert on a missing item, set semantics on the attribute, type error
when the attribute exists with a non-set type).

Remote failures of a single store call (network, throttling) are modelled
by an explicit `Option String` outcome parameter on the `…R` variants of
the operations that issue exactly one store call.
-/

namespace Datalayer

/-- DynamoDB attribute value, restricted to the variants this repository
uses: `S` (string), `N` (number), `SS` (string set). -/
inductive AttrVal where
  | S  (s : String)
  | N  (n : Int)
  | SS (ss : List String)
deriving DecidableEq, Repr

/-- A DynamoDB item: an attribute map, modelled as an association list
from attribute name to attribute value. -/
abbrev Item := List (String × AttrVal)

/-- Read an attribute from an item (first binding with that name). -/
def attrOf (it : Item) (name : String) : Option AttrVal :=
  (it.find? (fun p => p.1 == name)).map (fun p => p.2)

/-- `true` when the item's attribute `keyName` holds the string `keyVal`,
i.e. the item is the one addressed by that partition-key value. -/
def itemHasKey (keyName keyVal : String) (it : Item) : Bool :=
  decide (attrOf it keyName = some (AttrVal.S keyVal))

/-- Write attribute `name` to value `v` in an item, replacing the first
existing binding or appending a new one. -/
def setAttr (it : Item) (name : String) (v : AttrVal) : Item :=
  match it with
  | [] => [(name, v)]
  | (n, w) :: rest =>
    if n = name then (name, v) :: rest else (n, w) :: setAttr rest name v

/-- Remove attribute `name` from an item. -/
def removeAttr (it : Item) (name : String) : Item :=
  it.filter (fun p => p.1 != name)

/-- Replace the first element satisfying `p` in a list. -/
def replaceFirst (tbl : List Item) (p : Item → Bool) (it2 : Item) : List Item :=
  match tbl with
  | [] => []
  | it :: rest => if p it then it2 :: rest else it :: replaceFirst rest p it2

/-- Modelled from the spec (§4.1 `getByKey`, for the external DynamoDB
client): return the item addressed by `keyName = keyVal`, or an absent
result when no such item exists. -/
def getItemStore (tbl : List Item) (keyName keyVal : String) : Option Item :=
  tbl.find? (itemHasKey keyName keyVal)

/-- Modelled from the spec (§4.1 `deleteByKey`, for the external DynamoDB
client): remove the item addressed by `keyName = keyVal`; succeeds even if
no item existed. -/
def deleteItemStore (tbl : List Item) (keyName keyVal : String) : List Item :=
  tbl.filter (fun it => !(itemHasKey keyName keyVal it))

/-- Modelled from the spec (§4.1 `put`, for the external DynamoDB client):
insert or fully replace the item at the record's key; last writer wins. -/
def putItemStore (tbl : List Item) (keyName : String) (item : Item) : List Item :=
  match attrOf item keyName with
  | some (AttrVal.S v) =>
    if (tbl.find? (itemHasKey keyName v)).isSome
    then replaceFirst tbl (itemHasKey keyName v) item
    else tbl ++ [item]
  | _ => tbl ++ [item]

/-- `ADD` of one element to the string-set attribute `attr` of a single
item: set semantics (adding a present element is a no-op), the attribute
is created when absent, and a non-set attribute is a store-level type
error. -/
def addSSInItem (it : Item) (attr x : String) : Except String Item :=
  match attrOf it attr with
  | some (AttrVal.SS ss) =>
    Except.ok (setAttr it attr (AttrVal.SS (if x ∈ ss then ss else ss ++ [x])))
  | none => Except.ok (setAttr it attr (AttrVal.SS [x]))
  | some _ => Except.error "ADD: attribute is not a string set"

/-- `DELETE` of one element from the string-set attribute `attr` of a
single item: set semantics (removing an absent element is a no-op), the
attribute is removed when the set becomes empty, an absent attribute is a
no-op, and a non-set attribute is a store-level type error. -/
def delSSInItem (it : Item) (attr x : String) : Except String Item :=
  match attrOf it attr with
  | some (AttrVal.SS ss) =>
    let ss2 := ss.filter (fun y => y != x)
    Except.ok (if ss2.isEmpty then removeAttr it attr else setAttr it attr (AttrVal.SS ss2))
  | none => Except.ok it
  | some _ => Except.error "DELETE: attribute is not a string set"

/-- Modelled from the spec (§4.1, for the external DynamoDB client):
`UpdateItem` with expression `ADD attr :x` addressed by
`keyName = keyVal`; creates the item when absent (the store's native
update-on-missing-item upsert). -/
def updateAddSS (tbl : List Item) (keyName keyVal attr x : String) :
    Except String (List Item) :=
  match tbl.find? (itemHasKey keyName keyVal) with
  | none => Except.ok (tbl ++ [[(keyName, AttrVal.S keyVal), (attr, AttrVal.SS [x])]])
  | some it =>
    match addSSInItem it attr x with
    | Except.error e => Except.error e
    | Except.ok it2 => Except.ok (replaceFirst tbl (itemHasKey keyName keyVal) it2)

/-- Modelled from the spec (§4.1, for the external DynamoDB client):
`UpdateItem` with expression `DELETE attr :x` addressed by
`keyName = keyVal`; creates a bare keyed item when absent (the store's
native update-on-missing-item upsert). -/
def updateDelSS (tbl : List Item) (keyName keyVal attr x : String) :
    Except String (List Item) :=
  match tbl.find? (itemHasKey keyName keyVal) with
  | none => Except.ok (tbl ++ [[(keyName, AttrVal.S keyVal)]])
  | some it =>
    match delSSInItem it attr x with
    | Except.error e => Except.error e
    | Except.ok it2 => Except.ok (replaceFirst tbl (itemHasKey keyName keyVal) it2)

/-- The state of the backing store: the two tables provisioned by
`dynamodb/dynamo.cf-template.yml` — `flights` keyed by `number` and
`passengers` keyed by `id`. -/
structure Dynamo where
  flights    : List Item
  passengers : List Item
deriving DecidableEq, Repr

/-- Resolve a table name string to the table contents (the repository
only ever addresses "flights" and "passengers"). -/
def getTable (db : Dynamo) (table : String) : List Item :=
  if table = "flights" then db.flights
  else if table = "passengers" then db.passengers
  else []

/-- Write back a table addressed by name. -/
def setTable (db : Dynamo) (table : String) (tbl : List Item) : Dynamo :=
  if table = "flights" then { db with flights := tbl }
  else if table = "passengers" then { db with passengers := tbl }
  else db

/-- Embeds `scanTable` (datalayer.go): one `Scan` request on the named
table; in this state model the single response holds the whole table. -/
def scanTable (db : Dynamo) (tableName : String) : List Item :=
  getTable db tableName

/-- Embeds `model.Passenger` (import of `graph/model`, not under `src/`).
Modelled from the spec (§3): `{ id: string; name: string }`. -/
structure Passenger where
  id   : String
  name : String
deriving DecidableEq, Repr

/-- Embeds `model.Flight` (import of `graph/model`, not under `src/`).
Modelled from the spec (§3): the flight view with the passenger-id set
expanded into full `Passenger` records. -/
structure Flight where
  number     : String
  capacity   : Int
  captain    : String
  plane      : String
  passengers : List Passenger
deriving DecidableEq, Repr

/-- Embeds `DynamoFlight` (datalayer.go): the raw flights-table record. -/
structure DynamoFlight where
  number     : String
  passengers : List String
  capacity   : Int
  captain    : String
  plane      : String
deriving DecidableEq, Repr

/-- Unmarshal a string field: an absent attribute yields the zero value
`""`, a wrong-typed attribute is an unmarshal error (the
`dynamodbattribute.UnmarshalMap` behaviour). -/
def unmarshalString (it : Item) (name : String) : Except String String :=
  match attrOf it name with
  | none => Except.ok ""
  | some (AttrVal.S s) => Except.ok s
  | some _ => Except.error ("unmarshal type error: " ++ name)

/-- Unmarshal a string-set field into a list: absent yields the zero
value `[]`, wrong-typed is an unmarshal error. -/
def unmarshalStringSet (it : Item) (name : String) : Except String (List String) :=
  match attrOf it name with
  | none => Except.ok []
  | some (AttrVal.SS ss) => Except.ok ss
  | some _ => Except.error ("unmarshal type error: " ++ name)

/-- Unmarshal a numeric field: absent yields the zero value `0`,
wrong-typed is an unmarshal error. -/
def unmarshalInt (it : Item) (name : String) : Except String Int :=
  match attrOf it name with
  | none => Except.ok 0
  | some (AttrVal.N n) => Except.ok n
  | some _ => Except.error ("unmarshal type error: " ++ name)

/-- `dynamodbattribute.UnmarshalMap` into `model.Passenger` (attribute
names from the model's field tags: `id`, `name`). -/
def unmarshalPassenger (it : Item) : Except String Passenger := do
  let id ← unmarshalString it "id"
  let name ← unmarshalString it "name"
  Except.ok { id := id, name := name }

/-- `dynamodbattribute.MarshalMap` of a `model.Passenger`; marshalling a
record of strings never fails. -/
def marshalPassenger (p : Passenger) : Item :=
  [("id", AttrVal.S p.id), ("name", AttrVal.S p.name)]

/-- `dynamodbattribute.UnmarshalMap` into `DynamoFlight` (the attribute
decoder matches field names case-insensitively, so the table's lowercase
attribute names bind the struct fields). -/
def unmarshalDynamoFlight (it : Item) : Except String DynamoFlight := do
  let number ← unmarshalString it "number"
  let passengers ← unmarshalStringSet it "passengers"
  let capacity ← unmarshalInt it "capacity"
  let captain ← unmarshalString it "captain"
  let plane ← unmarshalString it "plane"
  Except.ok { number := number, passengers := passengers, capacity := capacity,
              captain := captain, plane := plane }

/-- Modelled from the spec (§3, for the external `google/uuid` library):
the identifier generator, abstracted as an injective source of non-empty
identifier strings indexed by a generation counter. -/
def uuidString (g : Nat) : String :=
  "uuid-" ++ String.mk (List.replicate g 'x')

/-- Embeds `CreatePassenger` (datalayer.go): generate a fresh identifier,
build the record, marshal it and `PutItem` it into `passengers`.  The
generator state is the `Nat` counter; the returned counter is the state
after the `uuid.New()` call. -/
def CreatePassenger (db : Dynamo) (gen : Nat) (name : String) :
    Dynamo × Nat × Passenger :=
  let item : Passenger := { id := uuidString gen, name := name }
  let av := marshalPassenger item
  ({ db with passengers := putItemStore db.passengers "id" av }, gen + 1, item)

/-- Embeds `DeletePassenger` (datalayer.go): `DeleteItem` on `passengers`
keyed by `id`; on success returns `(true, nil)`. -/
def DeletePassenger (db : Dynamo) (passengerId : String) :
    Dynamo × Bool × Option String :=
  ({ db with passengers := deleteItemStore db.passengers "id" passengerId }, true, none)

/-- `DeletePassenger` with the remote outcome of its single `DeleteItem`
call made explicit: `remote = some e` models a failed remote call. -/
def DeletePassengerR (remote : Option String) (db : Dynamo) (passengerId : String) :
    Dynamo × Bool × Option String :=
  match remote with
  | some e => (db, false, some e)
  | none => DeletePassenger db passengerId

/-- Embeds `addToSet` (datalayer.go): `UpdateItem` with `ADD #0 :0` on
the string set `setAttribute` of the record keyed
`keyAttribute = key` in `table`. -/
def addToSet (db : Dynamo) (table keyAttribute key setAttribute setItem : String) :
    Except String Dynamo :=
  match updateAddSS (getTable db table) keyAttribute key setAttribute setItem with
  | Except.error e => Except.error e
  | Except.ok tbl => Except.ok (setTable db table tbl)

/-- Embeds `deleteFromSet` (datalayer.go): `UpdateItem` with
`DELETE #0 :0` on the string set `setAttribute` of the record keyed
`keyAttribute = key` in `table`. -/
def deleteFromSet (db : Dynamo) (table keyAttribute key setAttribute setItem : String) :
    Except String Dynamo :=
  match updateDelSS (getTable db table) keyAttribute key setAttribute setItem with
  | Except.error e => Except.error e
  | Except.ok tbl => Except.ok (setTable db table tbl)

/-- Embeds `BookFlight` (datalayer.go):
`addToSet("flights", "number", flightNumber, "passengers", passengerId)`;
`(true, nil)` on success, `(false, err)` on store error. -/
def BookFlight (db : Dynamo) (flightNumber passengerId : String) :
    Dynamo × Bool × Option String :=
  match addToSet db "flights" "number" flightNumber "passengers" passengerId with
  | Except.error e => (db, false, some e)
  | Except.ok db2 => (db2, true, none)

/-- `BookFlight` with the remote outcome of its single `UpdateItem` call
made explicit: `remote = some e` models a failed remote call. -/
def BookFlightR (remote : Option String) (db : Dynamo) (flightNumber passengerId : String) :
    Dynamo × Bool × Option String :=
  match remote with
  | some e => (db, false, some e)
  | none => BookFlight db flightNumber passengerId

/-- Embeds `CancelBooking` (datalayer.go):
`deleteFromSet("flights", "number", flightNumber, "passengers", passengerId)`;
`(true, nil)` on success, `(false, err)` on store error. -/
def CancelBooking (db : Dynamo) (flightNumber passengerId : String) :
    Dynamo × Bool × Option String :=
  match deleteFromSet db "flights" "number" flightNumber "passengers" passengerId with
  | Except.error e => (db, false, some e)
  | Except.ok db2 => (db2, true, none)

/-- `CancelBooking` with the remote outcome of its single `UpdateItem`
call made explicit: `remote = some e` models a failed remote call. -/
def CancelBookingR (remote : Option String) (db : Dynamo) (flightNumber passengerId : String) :
    Dynamo × Bool × Option String :=
  match remote with
  | some e => (db, false, some e)
  | none => CancelBooking db flightNumber passengerId

/-- Embeds `GetPassenger` (datalayer.go): `GetItem` on `passengers` keyed
by `id`, then unmarshal; an absent item gives a nil attribute map, which
unmarshals to the zero-valued record. -/
def GetPassenger (db : Dynamo) (passengerId : String) : Except String Passenger :=
  unmarshalPassenger ((getItemStore db.passengers "id" passengerId).getD [])

/-- The passenger-lookup loop of `convertDynamoFlightToFlight`
(datalayer.go): one `GetPassenger` point lookup per id, accumulated in
order, aborting on the first error. -/
def lookupPassengers (db : Dynamo) : List String → Except String (List Passenger)
  | [] => Except.ok []
  | pid :: rest =>
    match GetPassenger db pid with
    | Except.error e => Except.error e
    | Except.ok p =>
      match lookupPassengers db rest with
      | Except.error e => Except.error e
      | Except.ok ps => Except.ok (p :: ps)

/-- Embeds `convertDynamoFlightToFlight` (datalayer.go): copy the scalar
fields and expand the passenger-id set via `GetPassenger` lookups. -/
def convertDynamoFlightToFlight (db : Dynamo) (dynamoFlight : DynamoFlight) :
    Except String Flight :=
  match lookupPassengers db dynamoFlight.passengers with
  | Except.error e => Except.error e
  | Except.ok ps =>
    Except.ok { number := dynamoFlight.number, capacity := dynamoFlight.capacity,
                captain := dynamoFlight.captain, plane := dynamoFlight.plane,
                passengers := ps }

/-- The per-item body of the `GetAllFlights` loop: unmarshal the raw
record, then convert it (including the passenger join). -/
def processFlight (db : Dynamo) (it : Item) : Except String Flight :=
  match unmarshalDynamoFlight it with
  | Except.error e => Except.error e
  | Except.ok df => convertDynamoFlightToFlight db df

/-- The `GetAllFlights` loop over the scanned items: process each item in
order, returning the first error and otherwise the accumulated list. -/
def getAllFlightsLoop (db : Dynamo) : List Item → Except String (List Flight)
  | [] => Except.ok []
  | it :: rest =>
    match processFlight db it with
    | Except.error e => Except.error e
    | Except.ok fl =>
      match getAllFlightsLoop db rest with
      | Except.error e => Except.error e
      | Except.ok fls => Except.ok (fl :: fls)

/-- Embeds `GetAllFlights` (datalayer.go): scan `flights`, then process
every scanned item. -/
def GetAllFlights (db : Dynamo) : Except String (List Flight) :=
  getAllFlightsLoop db (scanTable db "flights")

/-- The `GetAllPassengers` loop over the scanned items: unmarshal each
item in order, returning the first error and otherwise the list. -/
def getAllPassengersLoop : List Item → Except String (List Passenger)
  | [] => Except.ok []
  | it :: rest =>
    match unmarshalPassenger it with
    | Except.error e => Except.error e
    | Except.ok p =>
      match getAllPassengersLoop rest with
      | Except.error e => Except.error e
      | Except.ok ps => Except.ok (p :: ps)

/-- Embeds `GetAllPassengers` (datalayer.go): scan `passengers`, then
unmarshal every scanned item. -/
def GetAllPassengers (db : Dynamo) : Except String (List Passenger) :=
  getAllPassengersLoop (scanTable db "passengers")

/-- Modelled from the spec (§4.1 `scanAll`, for the external DynamoDB
client): the single response to one `Scan` request — possibly truncated
to a page, with `LastEvaluatedKey` set when further pages exist. -/
structure ScanOutput where
  items : List Item
  lastEvaluatedKey : Option Item
deriving DecidableEq, Repr

/-- Modelled from the spec (§4.1, for the external DynamoDB client): the
store's single `Scan` response for a table, truncated at the response
limit `limit`; `lastEvaluatedKey` marks that further pages exist. -/
def svcScanPage (tbl : List Item) (limit : Nat) : ScanOutput :=
  { items := tbl.take limit,
    lastEvaluatedKey := if tbl.length ≤ limit then none else (tbl.take limit).getLast? }

/-- `GetAllPassengers` over the store's single paged response:
`scanTable` issues one request and the loop consumes only that
response's items; `lastEvaluatedKey` is never read. -/
def GetAllPassengersPaged (db : Dynamo) (limit : Nat) : Except String (List Passenger) :=
  getAllPassengersLoop (svcScanPage db.passengers limit).items

/-- `GetAllFlights` over the store's single paged response. -/
def GetAllFlightsPaged (db : Dynamo) (limit : Nat) : Except String (List Flight) :=
  getAllFlightsLoop db (svcScanPage db.flights limit).items

/-- The passenger-id set currently stored on flight `f`: the string-set
attribute `passengers` of the item keyed `number = f`, read as a list. -/
def flightPassengerSet (db : Dynamo) (f : String) : List String :=
  match db.flights.find? (itemHasKey "number" f) with
  | none => []
  | some it =>
    match attrOf it "passengers" with
    | some (AttrVal.SS ss) => ss
    | _ => []

/-- `true` when the addressed flight item, if present, stores its
`passengers` attribute as a string set or not at all — i.e. the stored
data admits the store's set update without a type fault. -/
def ssCompatible : Option Item → Bool
  | none => true
  | some it =>
    match attrOf it "passengers" with
    | none => true
    | some (AttrVal.SS _) => true
    | some _ => false

/-! ## Helper lemmas about items and attribute updates -/

theorem attrOf_nil (n : String) : attrOf [] n = none := rfl

theorem attrOf_cons (m : String) (v : AttrVal) (rest : Item) (n : String) :
    attrOf ((m, v) :: rest) n = if m = n then some v else attrOf rest n := by
  by_cases h : m = n
  · simp [attrOf, h]
  · simp [attrOf, h]

theorem attrOf_setAttr_same (it : Item) (n : String) (v : AttrVal) :
    attrOf (setAttr it n v) n = some v := by
  induction it with
  | nil => simp [setAttr, attrOf_cons]
  | cons hd tl ih =>
    obtain ⟨m, w⟩ := hd
    by_cases h : m = n
    · simp [setAttr, h, attrOf_cons]
    · simp [setAttr, h, attrOf_cons, ih]

theorem attrOf_setAttr_other (it : Item) {n n' : String} (v : AttrVal) (h : n' ≠ n) :
    attrOf (setAttr it n v) n' = attrOf it n' := by
  induction it with
  | nil =>
    simp only [setAttr, attrOf_cons, attrOf_nil]
    rw [if_neg (fun hh => h hh.symm)]
  | cons hd tl ih =>
    obtain ⟨m, w⟩ := hd
    by_cases hm : m = n
    · simp only [setAttr, if_pos hm, attrOf_cons]
      rw [if_neg (fun hh => h hh.symm), if_neg (fun hh => h (hm ▸ hh).symm)]
    · simp only [setAttr, if_neg hm, attrOf_cons, ih]

theorem setAttr_self {it : Item} {n : String} {v : AttrVal}
    (h : attrOf it n = some v) : setAttr it n v = it := by
  induction it with
  | nil => simp [attrOf_nil] at h
  | cons hd tl ih =>
    obtain ⟨m, w⟩ := hd
    rw [attrOf_cons] at h
    by_cases hm : m = n
    · rw [if_pos hm] at h
      simp only [setAttr, if_pos hm]
      cases h
      cases hm
      rfl
    · rw [if_neg hm] at h
      simp [setAttr, if_neg hm, ih h]

theorem attrOf_removeAttr_same (it : Item) (n : String) :
    attrOf (removeAttr it n) n = none := by
  induction it with
  | nil => rfl
  | cons hd tl ih =>
    obtain ⟨m, w⟩ := hd
    by_cases hm : m = n
    · simp only [removeAttr, List.filter_cons] at ih ⊢
      simpa [hm] using ih
    · simp only [removeAttr, List.filter_cons] at ih ⊢
      simpa [hm, attrOf_cons] using ih

theorem attrOf_removeAttr_other (it : Item) {n n' : String} (h : n' ≠ n) :
    attrOf (removeAttr it n) n' = attrOf it n' := by
  induction it with
  | nil => rfl
  | cons hd tl ih =>
    obtain ⟨m, w⟩ := hd
    by_cases hm : m = n
    · rw [attrOf_cons, if_neg (fun hh => h (hm ▸ hh).symm)]
      simp only [removeAttr, List.filter_cons] at ih ⊢
      simpa [hm] using ih
    · simp only [removeAttr, List.filter_cons] at ih ⊢
      simp only [show (m != n) = true by simpa using hm, if_pos, attrOf_cons, ih]

theorem replaceFirst_find?_self {tbl : List Item} {p : Item → Bool} {x : Item}
    (h : tbl.find? p = some x) : replaceFirst tbl p x = tbl := by
  induction tbl with
  | nil => simp at h
  | cons it rest ih =>
    by_cases hp : p it
    · rw [List.find?_cons_of_pos _ hp] at h
      cases h
      simp [replaceFirst, hp]
    · rw [List.find?_cons_of_neg _ hp] at h
      simp [replaceFirst, hp, ih h]

theorem find?_replaceFirst {tbl : List Item} {p : Item → Bool} {it2 : Item}
    (h : (tbl.find? p).isSome) (h2 : p it2 = true) :
    (replaceFirst tbl p it2).find? p = some it2 := by
  induction tbl with
  | nil => simp at h
  | cons it rest ih =>
    by_cases hp : p it
    · simp [replaceFirst, hp, List.find?_cons_of_pos _ h2]
    · rw [List.find?_cons_of_neg _ hp] at h
      simp [replaceFirst, hp, List.find?_cons_of_neg _ hp, ih h]

theorem itemHasKey_eq_true {k v : String} {it : Item} :
    itemHasKey k v it = true ↔ attrOf it k = some (AttrVal.S v) := by
  simp [itemHasKey]

/-- A deleted key is no longer found: the store's `find?` over the
filtered table fails. -/
theorem getItemStore_deleteItemStore (tbl : List Item) (k v : String) :
    getItemStore (deleteItemStore tbl k v) k v = none := by
  simp only [getItemStore, deleteItemStore]
  rw [List.find?_eq_none]
  intro x hx
  rw [List.mem_filter] at hx
  simpa using hx.2

theorem updateAddSS_of_none {tbl : List Item} {k v : String} (attr x : String)
    (hfind : tbl.find? (itemHasKey k v) = none) :
    updateAddSS tbl k v attr x =
      Except.ok (tbl ++ [[(k, AttrVal.S v), (attr, AttrVal.SS [x])]]) := by
  unfold updateAddSS
  rw [hfind]

theorem updateAddSS_of_found {tbl : List Item} {k v : String} {it : Item} (attr x : String)
    (hfind : tbl.find? (itemHasKey k v) = some it) :
    updateAddSS tbl k v attr x =
      match addSSInItem it attr x with
      | Except.error e => Except.error e
      | Except.ok it2 => Except.ok (replaceFirst tbl (itemHasKey k v) it2) := by
  unfold updateAddSS
  rw [hfind]

theorem updateDelSS_of_none {tbl : List Item} {k v : String} (attr x : String)
    (hfind : tbl.find? (itemHasKey k v) = none) :
    updateDelSS tbl k v attr x = Except.ok (tbl ++ [[(k, AttrVal.S v)]]) := by
  unfold updateDelSS
  rw [hfind]

theorem updateDelSS_of_found {tbl : List Item} {k v : String} {it : Item} (attr x : String)
    (hfind : tbl.find? (itemHasKey k v) = some it) :
    updateDelSS tbl k v attr x =
      match delSSInItem it attr x with
      | Except.error e => Except.error e
      | Except.ok it2 => Except.ok (replaceFirst tbl (itemHasKey k v) it2) := by
  unfold updateDelSS
  rw [hfind]

theorem addSSInItem_SS {it : Item} {attr : String} {ss : List String} (x : String)
    (h : attrOf it attr = some (AttrVal.SS ss)) :
    addSSInItem it attr x =
      Except.ok (setAttr it attr (AttrVal.SS (if x ∈ ss then ss else ss ++ [x]))) := by
  unfold addSSInItem
  rw [h]

theorem addSSInItem_absent {it : Item} {attr : String} (x : String)
    (h : attrOf it attr = none) :
    addSSInItem it attr x = Except.ok (setAttr it attr (AttrVal.SS [x])) := by
  unfold addSSInItem
  rw [h]

theorem delSSInItem_SS {it : Item} {attr : String} {ss : List String} (x : String)
    (h : attrOf it attr = some (AttrVal.SS ss)) :
    delSSInItem it attr x =
      Except.ok (if (ss.filter (fun y => y != x)).isEmpty then removeAttr it attr
                 else setAttr it attr (AttrVal.SS (ss.filter (fun y => y != x)))) := by
  unfold delSSInItem
  rw [h]

theorem delSSInItem_absent {it : Item} {attr : String} (x : String)
    (h : attrOf it attr = none) :
    delSSInItem it attr x = Except.ok it := by
  unfold delSSInItem
  rw [h]

/-- Structure of a successful string-set `ADD`: afterwards the addressed
item is found, its set attribute is a string set, and it contains the
added element. -/
theorem updateAddSS_ok_spec {tbl tbl2 : List Item} {k v attr x : String}
    (hka : attr ≠ k) (h : updateAddSS tbl k v attr x = Except.ok tbl2) :
    ∃ it2 ss2, tbl2.find? (itemHasKey k v) = some it2 ∧
      attrOf it2 attr = some (AttrVal.SS ss2) ∧ x ∈ ss2 := by
  cases hfind : tbl.find? (itemHasKey k v) with
  | none =>
    rw [updateAddSS_of_none attr x hfind] at h
    cases h
    refine ⟨[(k, AttrVal.S v), (attr, AttrVal.SS [x])], [x], ?_, ?_, ?_⟩
    · rw [List.find?_append, hfind]
      have hk : itemHasKey k v [(k, AttrVal.S v), (attr, AttrVal.SS [x])] = true := by
        rw [itemHasKey_eq_true, attrOf_cons, if_pos rfl]
      simp [hk]
    · rw [attrOf_cons, if_neg (fun hh => hka hh.symm), attrOf_cons, if_pos rfl]
    · simp
  | some it =>
    rw [updateAddSS_of_found attr x hfind] at h
    have hpredit : itemHasKey k v it = true := List.find?_some hfind
    cases hattr : attrOf it attr with
    | none =>
      rw [addSSInItem_absent x hattr] at h
      cases h
      refine ⟨setAttr it attr (AttrVal.SS [x]), [x], ?_, ?_, ?_⟩
      · refine find?_replaceFirst (by simp [hfind]) ?_
        rw [itemHasKey_eq_true, attrOf_setAttr_other _ _ (fun hh => hka hh.symm)]
        exact itemHasKey_eq_true.1 hpredit
      · exact attrOf_setAttr_same it attr _
      · simp
    | some w =>
      cases w with
      | SS ss =>
        rw [addSSInItem_SS x hattr] at h
        cases h
        refine ⟨setAttr it attr (AttrVal.SS (if x ∈ ss then ss else ss ++ [x])),
          (if x ∈ ss then ss else ss ++ [x]), ?_, ?_, ?_⟩
        · refine find?_replaceFirst (by simp [hfind]) ?_
          rw [itemHasKey_eq_true, attrOf_setAttr_other _ _ (fun hh => hka hh.symm)]
          exact itemHasKey_eq_true.1 hpredit
        · exact attrOf_setAttr_same it attr _
        · by_cases hx : x ∈ ss <;> simp [hx]
      | S s =>
        rw [show addSSInItem it attr x = Except.error "ADD: attribute is not a string set" from by
          unfold addSSInItem; rw [hattr]] at h
        cases h
      | N n =>
        rw [show addSSInItem it attr x = Except.error "ADD: attribute is not a string set" from by
          unfold addSSInItem; rw [hattr]] at h
        cases h

/-- A second identical string-set `ADD` is a no-op: the store's set
semantics make the update idempotent. -/
theorem updateAddSS_idem {tbl tbl2 : List Item} {k v attr x : String}
    (hka : attr ≠ k) (h : updateAddSS tbl k v attr x = Except.ok tbl2) :
    updateAddSS tbl2 k v attr x = Except.ok tbl2 := by
  obtain ⟨it2, ss2, hfind, hattr, hx⟩ := updateAddSS_ok_spec hka h
  rw [updateAddSS_of_found attr x hfind, addSSInItem_SS x hattr, if_pos hx,
    setAttr_self hattr]
  show Except.ok (replaceFirst tbl2 (itemHasKey k v) it2) = Except.ok tbl2
  rw [replaceFirst_find?_self hfind]

/-- Structure of a string-set `DELETE` on a found item whose attribute is
a string set: it succeeds, the addressed item is still found, and the
removed element is gone (the attribute is dropped when the set empties,
otherwise it remains a non-empty set without the element). -/
theorem updateDelSS_ok_spec {tbl : List Item} {k v attr x : String} {it : Item}
    {ss : List String} (hka : attr ≠ k)
    (hfind : tbl.find? (itemHasKey k v) = some it)
    (hattr : attrOf it attr = some (AttrVal.SS ss)) :
    ∃ tbl3 it3, updateDelSS tbl k v attr x = Except.ok tbl3 ∧
      tbl3.find? (itemHasKey k v) = some it3 ∧
      (attrOf it3 attr = none ∨
        ∃ ss3, attrOf it3 attr = some (AttrVal.SS ss3) ∧ x ∉ ss3 ∧ ss3 ≠ []) := by
  rw [updateDelSS_of_found attr x hfind, delSSInItem_SS x hattr]
  have hself : itemHasKey k v it = true := List.find?_some hfind
  by_cases hempty : (ss.filter (fun y => y != x)).isEmpty
  · rw [if_pos hempty]
    refine ⟨_, removeAttr it attr, rfl, ?_, Or.inl (attrOf_removeAttr_same it attr)⟩
    refine find?_replaceFirst (by simp [hfind]) ?_
    rw [itemHasKey_eq_true, attrOf_removeAttr_other _ (fun hh => hka hh.symm)]
    exact itemHasKey_eq_true.1 hself
  · rw [if_neg hempty]
    refine ⟨_, setAttr it attr (AttrVal.SS (ss.filter (fun y => y != x))), rfl, ?_,
      Or.inr ⟨ss.filter (fun y => y != x), attrOf_setAttr_same it attr _, ?_, ?_⟩⟩
    · refine find?_replaceFirst (by simp [hfind]) ?_
      rw [itemHasKey_eq_true, attrOf_setAttr_other _ _ (fun hh => hka hh.symm)]
      exact itemHasKey_eq_true.1 hself
    · intro hmem
      have := List.mem_filter.1 hmem
      simpa using this.2
    · intro hnil
      rw [hnil] at hempty
      simp at hempty

/-- A string-set `DELETE` of an element the addressed item does not hold
(absent attribute, or a non-empty set without the element) leaves the
table unchanged and succeeds. -/
theorem updateDelSS_noop {tbl : List Item} {k v attr x : String} {it : Item}
    (hfind : tbl.find? (itemHasKey k v) = some it)
    (hattr : attrOf it attr = none ∨
      ∃ ss, attrOf it attr = some (AttrVal.SS ss) ∧ x ∉ ss ∧ ss ≠ []) :
    updateDelSS tbl k v attr x = Except.ok tbl := by
  rw [updateDelSS_of_found attr x hfind]
  cases hattr with
  | inl h =>
    rw [delSSInItem_absent x h]
    show Except.ok (replaceFirst tbl (itemHasKey k v) it) = Except.ok tbl
    rw [replaceFirst_find?_self hfind]
  | inr h =>
    obtain ⟨ss, hss, hx, hne⟩ := h
    have hfilter : ss.filter (fun y => y != x) = ss := by
      rw [List.filter_eq_self]
      intro a ha
      simp only [bne_iff_ne, ne_eq]
      exact fun hax => hx (hax ▸ ha)
    rw [delSSInItem_SS x hss, hfilter,
      if_neg (fun hemp => hne (List.isEmpty_iff.mp hemp)),
      setAttr_self hss]
    show Except.ok (replaceFirst tbl (itemHasKey k v) it) = Except.ok tbl
    rw [replaceFirst_find?_self hfind]

/-! ## Plumbing lemmas for table addressing -/

theorem getTable_flights (db : Dynamo) : getTable db "flights" = db.flights := by
  simp [getTable]

theorem getTable_passengers (db : Dynamo) : getTable db "passengers" = db.passengers := by
  simp [getTable]

theorem setTable_flights (db : Dynamo) (tbl : List Item) :
    setTable db "flights" tbl = { db with flights := tbl } := by
  simp [setTable]

theorem setTable_passengers (db : Dynamo) (tbl : List Item) :
    setTable db "passengers" tbl = { db with passengers := tbl } := by
  simp [setTable]

/-- `BookFlight` unfolded to the store update on the `flights` table. -/
theorem BookFlight_eq (db : Dynamo) (f p : String) :
    BookFlight db f p =
      match updateAddSS db.flights "number" f "passengers" p with
      | Except.error e => (db, false, some e)
      | Except.ok tbl => ({ db with flights := tbl }, true, none) := by
  cases h : updateAddSS db.flights "number" f "passengers" p <;>
    simp only [BookFlight, addToSet, getTable_flights, h, setTable_flights]

/-- `CancelBooking` unfolded to the store update on the `flights` table. -/
theorem CancelBooking_eq (db : Dynamo) (f p : String) :
    CancelBooking db f p =
      match updateDelSS db.flights "number" f "passengers" p with
      | Except.error e => (db, false, some e)
      | Except.ok tbl => ({ db with flights := tbl }, true, none) := by
  cases h : updateDelSS db.flights "number" f "passengers" p <;>
    simp only [CancelBooking, deleteFromSet, getTable_flights, h, setTable_flights]

/-! ## Lemmas about the listing loops and the passenger join -/

theorem getAllFlightsLoop_cons (db : Dynamo) (a : Item) (rest : List Item) :
    getAllFlightsLoop db (a :: rest) =
      match processFlight db a with
      | Except.error e => Except.error e
      | Except.ok fl =>
        match getAllFlightsLoop db rest with
        | Except.error e => Except.error e
        | Except.ok fls => Except.ok (fl :: fls) := rfl

theorem getAllPassengersLoop_cons (a : Item) (rest : List Item) :
    getAllPassengersLoop (a :: rest) =
      match unmarshalPassenger a with
      | Except.error e => Except.error e
      | Except.ok p =>
        match getAllPassengersLoop rest with
        | Except.error e => Except.error e
        | Except.ok ps => Except.ok (p :: ps) := rfl

/-- Every scanned item of a successful flight listing contributes a
processed flight to the output. -/
theorem getAllFlightsLoop_ok_mem {db : Dynamo} {items : List Item} {l : List Flight}
    (h : getAllFlightsLoop db items = Except.ok l) :
    ∀ it ∈ items, ∃ fl ∈ l, processFlight db it = Except.ok fl := by
  induction items generalizing l with
  | nil => intro it hit; simp at hit
  | cons a rest ih =>
    rw [getAllFlightsLoop_cons] at h
    cases hp : processFlight db a with
    | error e => rw [hp] at h; cases h
    | ok fl =>
      rw [hp] at h
      cases hr : getAllFlightsLoop db rest with
      | error e => rw [hr] at h; cases h
      | ok fls =>
        rw [hr] at h
        cases h
        intro it hit
        rcases List.mem_cons.1 hit with hit | hit
        · exact ⟨fl, List.mem_cons_self _ _, hit ▸ hp⟩
        · obtain ⟨fl2, hfl2, hpr⟩ := ih hr it hit
          exact ⟨fl2, List.mem_cons_of_mem _ hfl2, hpr⟩

/-- The flight listing fails fast: the first failing item aborts the
whole listing with that item's error. -/
theorem getAllFlightsLoop_fail_fast {db : Dynamo} {good rest : List Item}
    {bad : Item} {e : String}
    (hgood : ∀ it ∈ good, ∃ fl, processFlight db it = Except.ok fl)
    (hbad : processFlight db bad = Except.error e) :
    getAllFlightsLoop db (good ++ bad :: rest) = Except.error e := by
  induction good with
  | nil => rw [List.nil_append, getAllFlightsLoop_cons, hbad]
  | cons a g ih =>
    obtain ⟨fl, hfl⟩ := hgood a (List.mem_cons_self _ _)
    rw [List.cons_append, getAllFlightsLoop_cons, hfl,
      ih (fun it hit => hgood it (List.mem_cons_of_mem _ hit))]

/-- The passenger listing fails fast: the first failing item aborts the
whole listing with that item's error. -/
theorem getAllPassengersLoop_fail_fast {good rest : List Item} {bad : Item} {e : String}
    (hgood : ∀ it ∈ good, ∃ p, unmarshalPassenger it = Except.ok p)
    (hbad : unmarshalPassenger bad = Except.error e) :
    getAllPassengersLoop (good ++ bad :: rest) = Except.error e := by
  induction good with
  | nil => rw [List.nil_append, getAllPassengersLoop_cons, hbad]
  | cons a g ih =>
    obtain ⟨p, hp⟩ := hgood a (List.mem_cons_self _ _)
    rw [List.cons_append, getAllPassengersLoop_cons, hp,
      ih (fun it hit => hgood it (List.mem_cons_of_mem _ hit))]

/-- A successful listing returns exactly one flight per scanned item. -/
theorem getAllFlightsLoop_ok_length {db : Dynamo} {items : List Item} {l : List Flight}
    (h : getAllFlightsLoop db items = Except.ok l) : l.length = items.length := by
  induction items generalizing l with
  | nil => cases h; rfl
  | cons a rest ih =>
    rw [getAllFlightsLoop_cons] at h
    cases hp : processFlight db a with
    | error e => rw [hp] at h; cases h
    | ok fl =>
      rw [hp] at h
      cases hr : getAllFlightsLoop db rest with
      | error e => rw [hr] at h; cases h
      | ok fls => rw [hr] at h; cases h; simp [ih hr]

/-- A successful listing returns exactly one passenger per scanned item. -/
theorem getAllPassengersLoop_ok_length {items : List Item} {l : List Passenger}
    (h : getAllPassengersLoop items = Except.ok l) : l.length = items.length := by
  induction items generalizing l with
  | nil => cases h; rfl
  | cons a rest ih =>
    rw [getAllPassengersLoop_cons] at h
    cases hp : unmarshalPassenger a with
    | error e => rw [hp] at h; cases h
    | ok p =>
      rw [hp] at h
      cases hr : getAllPassengersLoop rest with
      | error e => rw [hr] at h; cases h
      | ok ps => rw [hr] at h; cases h; simp [ih hr]

/-- When every point lookup resolves, the join returns the looked-up
records in the order of the stored id list. -/
theorem lookupPassengers_map {db : Dynamo} {ids : List String} {F : String → Passenger}
    (h : ∀ pid ∈ ids, GetPassenger db pid = Except.ok (F pid)) :
    lookupPassengers db ids = Except.ok (ids.map F) := by
  induction ids with
  | nil => rfl
  | cons a rest ih =>
    show (match GetPassenger db a with
      | Except.error e => Except.error e
      | Except.ok p =>
        match lookupPassengers db rest with
        | Except.error e => Except.error e
        | Except.ok ps => Except.ok (p :: ps)) = _
    rw [h a (List.mem_cons_self _ _),
      ih (fun pid hp => h pid (List.mem_cons_of_mem _ hp))]
    rfl

/-- When every point lookup resolves, the conversion produces the flight
with the expanded passenger list. -/
theorem convertDynamoFlightToFlight_ok {db : Dynamo} {df : DynamoFlight}
    {F : String → Passenger}
    (h : ∀ pid ∈ df.passengers, GetPassenger db pid = Except.ok (F pid)) :
    convertDynamoFlightToFlight db df =
      Except.ok { number := df.number, capacity := df.capacity, captain := df.captain,
                  plane := df.plane, passengers := df.passengers.map F } := by
  unfold convertDynamoFlightToFlight
  rw [lookupPassengers_map h]

theorem GetAllFlights_eq (db : Dynamo) :
    GetAllFlights db = getAllFlightsLoop db db.flights := by
  unfold GetAllFlights scanTable
  rw [getTable_flights]

theorem GetAllPassengers_eq (db : Dynamo) :
    GetAllPassengers db = getAllPassengersLoop db.passengers := by
  unfold GetAllPassengers scanTable
  rw [getTable_passengers]

theorem flightPassengerSet_of_found {db : Dynamo} {f : String} {it : Item}
    (hfind : db.flights.find? (itemHasKey "number" f) = some it) :
    flightPassengerSet db f =
      match attrOf it "passengers" with
      | some (AttrVal.SS ss) => ss
      | _ => [] := by
  unfold flightPassengerSet
  rw [hfind]

theorem ssCompatible_some (it : Item) :
    ssCompatible (some it) =
      match attrOf it "passengers" with
      | none => true
      | some (AttrVal.SS _) => true
      | some _ => false := rfl

/-- Whenever the stored flight item (if any) is set-compatible, the
string-set `ADD` succeeds — existence of the item is not required. -/
theorem updateAddSS_ok_of_compat {tbl : List Item} {f : String} (p : String)
    (hty : ssCompatible (tbl.find? (itemHasKey "number" f)) = true) :
    ∃ tbl2, updateAddSS tbl "number" f "passengers" p = Except.ok tbl2 := by
  cases hfind : tbl.find? (itemHasKey "number" f) with
  | none => exact ⟨_, updateAddSS_of_none _ _ hfind⟩
  | some it =>
    rw [hfind, ssCompatible_some] at hty
    cases hattr : attrOf it "passengers" with
    | none =>
      exact ⟨_, by rw [updateAddSS_of_found _ _ hfind, addSSInItem_absent _ hattr]⟩
    | some w =>
      cases w with
      | SS ss =>
        exact ⟨_, by rw [updateAddSS_of_found _ _ hfind, addSSInItem_SS _ hattr]⟩
      | S s => rw [hattr] at hty; simp at hty
      | N n => rw [hattr] at hty; simp at hty

/-- A `put` item is found again under its own key (insert or replace). -/
theorem getItemStore_putItemStore (tbl : List Item) (k : String) {item : Item} {v : String}
    (h : attrOf item k = some (AttrVal.S v)) :
    getItemStore (putItemStore tbl k item) k v = some item := by
  unfold putItemStore getItemStore
  rw [h]
  show List.find? (itemHasKey k v)
      (if (List.find? (itemHasKey k v) tbl).isSome = true
       then replaceFirst tbl (itemHasKey k v) item
       else tbl ++ [item]) = some item
  by_cases hf : (tbl.find? (itemHasKey k v)).isSome
  · rw [if_pos hf]
    exact find?_replaceFirst hf (itemHasKey_eq_true.2 h)
  · rw [if_neg hf]
    rw [List.find?_append]
    rw [Option.not_isSome_iff_eq_none] at hf
    rw [hf, List.find?_cons_of_pos _ (itemHasKey_eq_true.2 h)]
    rfl

theorem uuidString_length (g : Nat) : (uuidString g).length = 5 + g := by
  have h5 : ("uuid-").length = 5 := rfl
  simp [uuidString, h5]

theorem uuidString_injective {g g' : Nat} (h : uuidString g = uuidString g') : g = g' := by
  have := congrArg String.length h
  rw [uuidString_length, uuidString_length] at this
  omega

theorem uuidString_ne_empty (g : Nat) : uuidString g ≠ "" := by
  intro h
  have := congrArg String.length h
  rw [uuidString_length] at this
  simp at this

/-! ## Claim theorems -/

/-- C2: for every passenger id — in particular every previously-created
one — `DeletePassenger id` followed by `GetPassenger id` yields the
empty/not-found result: the zero-valued record `{ id := "", name := "" }`,
never a populated `Passenger` record. -/
theorem deletePassenger_then_getPassenger_empty (db : Dynamo) (pid : String) :
    GetPassenger (DeletePassenger db pid).1 pid =
      Except.ok { id := "", name := "" } := by
  show unmarshalPassenger
      ((getItemStore (deleteItemStore db.passengers "id" pid) "id" pid).getD []) = _
  rw [getItemStore_deleteItemStore]
  rfl

/-- C3: `BookFlight f p` is idempotent — calling it twice with the same
arguments leaves the whole store state (in particular flight `f`'s
passenger set) identical to calling it once, because the store's set
`ADD` of an already-present id is a no-op. -/
theorem bookFlight_idempotent (db : Dynamo) (f p : String) :
    (BookFlight (BookFlight db f p).1 f p).1 = (BookFlight db f p).1 := by
  cases h : updateAddSS db.flights "number" f "passengers" p with
  | error e =>
    have h1 : BookFlight db f p = (db, false, some e) := by
      rw [BookFlight_eq db f p, h]
    rw [h1]
    show (BookFlight db f p).1 = db
    rw [h1]
  | ok tbl =>
    have h1 : BookFlight db f p = ({ db with flights := tbl }, true, none) := by
      rw [BookFlight_eq db f p, h]
    have h2 : updateAddSS ({ db with flights := tbl } : Dynamo).flights
        "number" f "passengers" p = Except.ok tbl :=
      updateAddSS_idem (by decide) h
    have h3 : BookFlight { db with flights := tbl } f p =
        ({ db with flights := tbl }, true, none) := by
      rw [BookFlight_eq _ f p, h2]
    rw [h1]
    show (BookFlight { db with flights := tbl } f p).1 = { db with flights := tbl }
    rw [h3]

/-- C7: `DeletePassenger` reports success whether or not an item with the
given id existed — the state is quantified over all stores, including
those without the item — and it returns an error exactly when the
store-level delete call itself fails. -/
theorem deletePassenger_success_regardless (db : Dynamo) (pid e : String) :
    (DeletePassengerR none db pid).2 = (true, none) ∧
    DeletePassengerR (some e) db pid = (db, false, some e) :=
  ⟨rfl, rfl⟩

/-- C10: each boolean-returning operation (`DeletePassenger`,
`BookFlight`, `CancelBooking`) returns `true` exactly when its error
result is `nil`: the pairs (`true`, error) and (`false`, `nil`) are never
returned, over every store state and every remote-call outcome. -/
theorem bool_iff_no_error (remote : Option String) (db : Dynamo) (f p pid : String) :
    ((DeletePassengerR remote db pid).2.1 = true ↔
      (DeletePassengerR remote db pid).2.2 = none) ∧
    ((BookFlightR remote db f p).2.1 = true ↔
      (BookFlightR remote db f p).2.2 = none) ∧
    ((CancelBookingR remote db f p).2.1 = true ↔
      (CancelBookingR remote db f p).2.2 = none) := by
  refine ⟨?_, ?_, ?_⟩
  · cases remote <;> simp [DeletePassengerR, DeletePassenger]
  · cases remote with
    | none =>
      show (BookFlight db f p).2.1 = true ↔ (BookFlight db f p).2.2 = none
      rw [BookFlight_eq]
      cases h : updateAddSS db.flights "number" f "passengers" p <;> simp
    | some e => simp [BookFlightR]
  · cases remote with
    | none =>
      show (CancelBooking db f p).2.1 = true ↔ (CancelBooking db f p).2.2 = none
      rw [CancelBooking_eq]
      cases h : updateDelSS db.flights "number" f "passengers" p <;> simp
    | some e => simp [CancelBookingR]

/-- C4: after a successful `BookFlight f p`, `CancelBooking f p` succeeds
and removes `p` from flight `f`'s passenger set, and a second
`CancelBooking f p` is a complete no-op on the store state and returns
success, not an error. -/
theorem cancelBooking_after_book (db db1 : Dynamo) (f p : String)
    (hbook : BookFlight db f p = (db1, true, none)) :
    (CancelBooking db1 f p).2 = (true, none) ∧
    p ∉ flightPassengerSet (CancelBooking db1 f p).1 f ∧
    CancelBooking (CancelBooking db1 f p).1 f p =
      ((CancelBooking db1 f p).1, true, none) := by
  cases h : updateAddSS db.flights "number" f "passengers" p with
  | error e =>
    rw [BookFlight_eq db f p, h] at hbook
    simp at hbook
  | ok tbl =>
    rw [BookFlight_eq db f p, h] at hbook
    have hdb1 : db1 = { db with flights := tbl } := by
      have := congrArg Prod.fst hbook
      simpa using this.symm
    subst hdb1
    obtain ⟨it2, ss2, hfind, hattr, hp⟩ := updateAddSS_ok_spec (by decide) h
    obtain ⟨tbl3, it3, hdel, hfind3, hprop⟩ :=
      updateDelSS_ok_spec (x := p) (by decide) hfind hattr
    have hdel1 : updateDelSS ({ db with flights := tbl } : Dynamo).flights
        "number" f "passengers" p = Except.ok tbl3 := hdel
    have hc1 : CancelBooking { db with flights := tbl } f p =
        ({ db with flights := tbl3 }, true, none) := by
      rw [CancelBooking_eq _ f p, hdel1]
    have hnoop : updateDelSS ({ db with flights := tbl3 } : Dynamo).flights
        "number" f "passengers" p = Except.ok tbl3 :=
      updateDelSS_noop hfind3 hprop
    have hc2 : CancelBooking { db with flights := tbl3 } f p =
        ({ db with flights := tbl3 }, true, none) := by
      rw [CancelBooking_eq _ f p, hnoop]
    have hfind3' : ({ db with flights := tbl3 } : Dynamo).flights.find?
        (itemHasKey "number" f) = some it3 := hfind3
    refine ⟨by rw [hc1], ?_, ?_⟩
    · have hstate : (CancelBooking { db with flights := tbl } f p).1 =
          { db with flights := tbl3 } := by rw [hc1]
      rw [hstate, flightPassengerSet_of_found hfind3']
      cases hprop with
      | inl hnone => rw [hnone]; simp
      | inr hss =>
        obtain ⟨ss3, hss3, hpx, hne⟩ := hss
        rw [hss3]
        exact hpx
    · have hstate : (CancelBooking { db with flights := tbl } f p).1 =
          { db with flights := tbl3 } := by rw [hc1]
      rw [hstate, hc2]

/-- C8: `BookFlight` performs no verification before the set-add: for
every store state whose addressed flight item (if present at all) is
set-compatible — including states where the flight item is absent, the
passenger id is stored nowhere, and the set already exceeds any stored
capacity — it succeeds and adds the id, and it returns an error exactly
when the store-level update call fails. -/
theorem bookFlight_no_verification (db : Dynamo) (f p e : String)
    (hty : ssCompatible (db.flights.find? (itemHasKey "number" f)) = true) :
    (BookFlight db f p).2 = (true, none) ∧
    p ∈ flightPassengerSet (BookFlight db f p).1 f ∧
    BookFlightR (some e) db f p = (db, false, some e) := by
  obtain ⟨tbl2, hok⟩ := updateAddSS_ok_of_compat p hty
  have h1 : BookFlight db f p = ({ db with flights := tbl2 }, true, none) := by
    rw [BookFlight_eq db f p, hok]
  obtain ⟨it2, ss2, hfind2, hattr2, hp⟩ := updateAddSS_ok_spec (by decide) hok
  have hfind2' : ({ db with flights := tbl2 } : Dynamo).flights.find?
      (itemHasKey "number" f) = some it2 := hfind2
  refine ⟨by rw [h1], ?_, rfl⟩
  have hstate : (BookFlight db f p).1 = { db with flights := tbl2 } := by rw [h1]
  rw [hstate, flightPassengerSet_of_found hfind2', hattr2]
  exact hp

/-- C6: `CreatePassenger` generates the passenger identifier itself (it
is the generator's output, independent of the caller-supplied name), the
id is non-empty, it is assigned at creation (the stored item carries it),
and it is unique across repeated calls with the same name. -/
theorem createPassenger_id_generated (db : Dynamo) (gen : Nat) (name : String) :
    (CreatePassenger db gen name).2.2.id ≠ "" ∧
    (CreatePassenger db gen name).2.2.id = uuidString gen ∧
    (CreatePassenger db gen name).2.2.name = name ∧
    (CreatePassenger (CreatePassenger db gen name).1
        (CreatePassenger db gen name).2.1 name).2.2.id ≠
      (CreatePassenger db gen name).2.2.id ∧
    getItemStore (CreatePassenger db gen name).1.passengers "id" (uuidString gen) =
      some (marshalPassenger (CreatePassenger db gen name).2.2) := by
  refine ⟨uuidString_ne_empty gen, rfl, rfl, ?_, ?_⟩
  · show uuidString (gen + 1) ≠ uuidString gen
    intro hh
    have := uuidString_injective hh
    omega
  · show getItemStore
        (putItemStore db.passengers "id"
          (marshalPassenger { id := uuidString gen, name := name })) "id"
        (uuidString gen) =
      some (marshalPassenger { id := uuidString gen, name := name })
    exact getItemStore_putItemStore db.passengers "id" rfl

/-- C9: the scan primitive issues exactly one request, and the listing
operations return one record per item of that single response — so when
the single response is truncated (further pages exist), the listing
length is the page length, and the items beyond the page are never
fetched. -/
theorem scan_single_page (db : Dynamo) (limit : Nat) (l : List Passenger)
    (lf : List Flight) :
    (GetAllPassengersPaged db limit = Except.ok l →
      l.length = (svcScanPage db.passengers limit).items.length) ∧
    (GetAllFlightsPaged db limit = Except.ok lf →
      lf.length = (svcScanPage db.flights limit).items.length) ∧
    (GetAllPassengersPaged db limit = Except.ok l → limit < db.passengers.length →
      l.length = limit) := by
  have hp : GetAllPassengersPaged db limit = Except.ok l →
      l.length = (svcScanPage db.passengers limit).items.length := fun h =>
    getAllPassengersLoop_ok_length h
  refine ⟨hp, fun h => getAllFlightsLoop_ok_length h, fun h hlt => ?_⟩
  rw [hp h]
  show (db.passengers.take limit).length = limit
  rw [List.length_take]
  omega

/-- C5: during `GetAllFlights` and `GetAllPassengers`, the first per-item
unmarshal failure or per-passenger lookup failure aborts the entire
listing with that error — no partial list that skips the bad item is
returned. -/
theorem getAll_fail_fast (db dbp : Dynamo) (good rest goodp restp : List Item)
    (bad badp : Item) (e ep : String)
    (hsplit : db.flights = good ++ bad :: rest)
    (hgood : ∀ it ∈ good, ∃ fl, processFlight db it = Except.ok fl)
    (hbad : processFlight db bad = Except.error e)
    (hsplitp : dbp.passengers = goodp ++ badp :: restp)
    (hgoodp : ∀ it ∈ goodp, ∃ pp, unmarshalPassenger it = Except.ok pp)
    (hbadp : unmarshalPassenger badp = Except.error ep) :
    GetAllFlights db = Except.error e ∧ GetAllPassengers dbp = Except.error ep := by
  constructor
  · rw [GetAllFlights_eq, hsplit]
    exact getAllFlightsLoop_fail_fast hgood hbad
  · rw [GetAllPassengers_eq, hsplitp]
    exact getAllPassengersLoop_fail_fast hgoodp hbadp

/-- C1: a successful `GetAllFlights` expands each scanned flight's
passenger-id set through one `GetPassenger` lookup per id: a flight whose
stored set holds exactly the ids `p1` and `p2` (in either store-returned
order) contributes a flight record whose expanded passenger list contains
exactly the two corresponding `Passenger` records. -/
theorem getAllFlights_expands_passenger_set (db : Dynamo) (l : List Flight)
    (it : Item) (df : DynamoFlight) (p1 p2 : String) (P1 P2 : Passenger)
    (hok : GetAllFlights db = Except.ok l)
    (hmem : it ∈ db.flights)
    (hum : unmarshalDynamoFlight it = Except.ok df)
    (hperm : df.passengers.Perm [p1, p2])
    (hne : p1 ≠ p2)
    (h1 : GetPassenger db p1 = Except.ok P1)
    (h2 : GetPassenger db p2 = Except.ok P2) :
    ∃ fl ∈ l, fl.number = df.number ∧ fl.capacity = df.capacity ∧
      fl.captain = df.captain ∧ fl.plane = df.plane ∧
      fl.passengers.Perm [P1, P2] := by
  rw [GetAllFlights_eq] at hok
  obtain ⟨fl, hfl, hproc⟩ := getAllFlightsLoop_ok_mem hok it hmem
  have hlk : ∀ pid ∈ df.passengers,
      GetPassenger db pid = Except.ok (if pid = p1 then P1 else P2) := by
    intro pid hpid
    have hpid2 : pid ∈ [p1, p2] := hperm.mem_iff.mp hpid
    rcases List.mem_cons.1 hpid2 with hpe | hpe
    · rw [if_pos hpe, hpe]; exact h1
    · have hpe2 : pid = p2 := by simpa using hpe
      rw [hpe2, if_neg (fun hh => hne hh.symm)]
      exact h2
  have hconv := convertDynamoFlightToFlight_ok hlk
  have hproc2 : processFlight db it = convertDynamoFlightToFlight db df := by
    unfold processFlight
    rw [hum]
  rw [hproc2, hconv] at hproc
  have hflv : fl = { number := df.number, capacity := df.capacity,
                     captain := df.captain, plane := df.plane,
                     passengers := df.passengers.map
                       (fun pid => if pid = p1 then P1 else P2) } := by
    cases hproc
    rfl
  refine ⟨fl, hfl, ?_, ?_, ?_, ?_, ?_⟩ <;> rw [hflv]
  have hmap : [p1, p2].map (fun pid => if pid = p1 then P1 else P2) = [P1, P2] := by
    have h21 : p2 ≠ p1 := fun hh => hne hh.symm
    simp [h21]
  show (df.passengers.map (fun pid => if pid = p1 then P1 else P2)).Perm [P1, P2]
  rw [← hmap]
  exact hperm.map _

/-- Witness for C4: book passenger "pp1" on flight "BA100" from an empty
store, then cancel twice. -/
theorem cancelBooking_after_book_witness :
    (CancelBooking
        (Dynamo.mk [[("number", AttrVal.S "BA100"), ("passengers", AttrVal.SS ["pp1"])]] [])
        "BA100" "pp1").2 = (true, none) ∧
    "pp1" ∉ flightPassengerSet
        (CancelBooking
          (Dynamo.mk [[("number", AttrVal.S "BA100"), ("passengers", AttrVal.SS ["pp1"])]] [])
          "BA100" "pp1").1 "BA100" ∧
    CancelBooking
        (CancelBooking
          (Dynamo.mk [[("number", AttrVal.S "BA100"), ("passengers", AttrVal.SS ["pp1"])]] [])
          "BA100" "pp1").1 "BA100" "pp1" =
      ((CancelBooking
          (Dynamo.mk [[("number", AttrVal.S "BA100"), ("passengers", AttrVal.SS ["pp1"])]] [])
          "BA100" "pp1").1, true, none) :=
  cancelBooking_after_book (Dynamo.mk [] []) _ "BA100" "pp1" rfl

/-- Witness for C8: booking on a store with no flight item, no passenger
item and no capacity data still succeeds and records the id. -/
theorem bookFlight_no_verification_witness :
    (BookFlight (Dynamo.mk [] []) "F1" "p1").2 = (true, none) ∧
    "p1" ∈ flightPassengerSet (BookFlight (Dynamo.mk [] []) "F1" "p1").1 "F1" ∧
    BookFlightR (some "err") (Dynamo.mk [] []) "F1" "p1" =
      (Dynamo.mk [] [], false, some "err") :=
  bookFlight_no_verification (Dynamo.mk [] []) "F1" "p1" "err" (by decide)

/-- Witness for C9: a passengers table of two items scanned with a page
limit of one returns exactly the one item of the single response. -/
theorem scan_single_page_witness :
    ([Passenger.mk "pp1" "Alice"].length =
      (svcScanPage (Dynamo.mk
        [[("number", AttrVal.S "BA100"), ("capacity", AttrVal.N 2),
          ("captain", AttrVal.S "Ann"), ("plane", AttrVal.S "A320"),
          ("passengers", AttrVal.SS ["pp2", "pp1"])]]
        [[("id", AttrVal.S "pp1"), ("name", AttrVal.S "Alice")],
         [("id", AttrVal.S "pp2"), ("name", AttrVal.S "Bob")]]).passengers 1).items.length) ∧
    ([Flight.mk "BA100" 2 "Ann" "A320" [Passenger.mk "pp2" "Bob", Passenger.mk "pp1" "Alice"]].length =
      (svcScanPage (Dynamo.mk
        [[("number", AttrVal.S "BA100"), ("capacity", AttrVal.N 2),
          ("captain", AttrVal.S "Ann"), ("plane", AttrVal.S "A320"),
          ("passengers", AttrVal.SS ["pp2", "pp1"])]]
        [[("id", AttrVal.S "pp1"), ("name", AttrVal.S "Alice")],
         [("id", AttrVal.S "pp2"), ("name", AttrVal.S "Bob")]]).flights 1).items.length) ∧
    [Passenger.mk "pp1" "Alice"].length = 1 := by
  have T := scan_single_page
    (Dynamo.mk
      [[("number", AttrVal.S "BA100"), ("capacity", AttrVal.N 2),
        ("captain", AttrVal.S "Ann"), ("plane", AttrVal.S "A320"),
        ("passengers", AttrVal.SS ["pp2", "pp1"])]]
      [[("id", AttrVal.S "pp1"), ("name", AttrVal.S "Alice")],
       [("id", AttrVal.S "pp2"), ("name", AttrVal.S "Bob")]]) 1
    [Passenger.mk "pp1" "Alice"]
    [Flight.mk "BA100" 2 "Ann" "A320" [Passenger.mk "pp2" "Bob", Passenger.mk "pp1" "Alice"]]
  exact ⟨T.1 rfl, T.2.1 rfl, T.2.2 rfl (by decide)⟩

/-- Witness for C5: a malformed passenger record aborts the flight
listing through the join, and a malformed item aborts the passenger
listing, each with the first error and no partial list. -/
theorem getAll_fail_fast_witness :
    GetAllFlights (Dynamo.mk
      [[("number", AttrVal.S "G1"), ("passengers", AttrVal.SS ["pp1"]),
        ("capacity", AttrVal.N 1), ("captain", AttrVal.S "A"), ("plane", AttrVal.S "P")],
       [("number", AttrVal.S "B2"), ("passengers", AttrVal.SS ["ghost"])]]
      [[("id", AttrVal.S "pp1"), ("name", AttrVal.S "Alice")],
       [("id", AttrVal.S "ghost"), ("name", AttrVal.N 5)]]) =
      Except.error "unmarshal type error: name" ∧
    GetAllPassengers (Dynamo.mk []
      [[("id", AttrVal.S "pp1"), ("name", AttrVal.S "Alice")],
       [("id", AttrVal.N 3)]]) =
      Except.error "unmarshal type error: id" :=
  getAll_fail_fast
    (Dynamo.mk
      [[("number", AttrVal.S "G1"), ("passengers", AttrVal.SS ["pp1"]),
        ("capacity", AttrVal.N 1), ("captain", AttrVal.S "A"), ("plane", AttrVal.S "P")],
       [("number", AttrVal.S "B2"), ("passengers", AttrVal.SS ["ghost"])]]
      [[("id", AttrVal.S "pp1"), ("name", AttrVal.S "Alice")],
       [("id", AttrVal.S "ghost"), ("name", AttrVal.N 5)]])
    (Dynamo.mk []
      [[("id", AttrVal.S "pp1"), ("name", AttrVal.S "Alice")],
       [("id", AttrVal.N 3)]])
    [[("number", AttrVal.S "G1"), ("passengers", AttrVal.SS ["pp1"]),
      ("capacity", AttrVal.N 1), ("captain", AttrVal.S "A"), ("plane", AttrVal.S "P")]]
    []
    [[("id", AttrVal.S "pp1"), ("name", AttrVal.S "Alice")]]
    []
    [("number", AttrVal.S "B2"), ("passengers", AttrVal.SS ["ghost"])]
    [("id", AttrVal.N 3)]
    "unmarshal type error: name" "unmarshal type error: id"
    rfl
    (by intro it hit
        rw [List.mem_singleton] at hit
        subst hit
        exact ⟨_, rfl⟩)
    rfl
    rfl
    (by intro it hit
        rw [List.mem_singleton] at hit
        subst hit
        exact ⟨_, rfl⟩)
    rfl

/-- Witness for C1: flight "BA100" stores the set {"pp1", "pp2"} in
reversed store order, and the listing expands it to exactly Alice and
Bob. -/
theorem getAllFlights_expands_passenger_set_witness :
    ∃ fl ∈ [Flight.mk "BA100" 2 "Ann" "A320"
        [Passenger.mk "pp2" "Bob", Passenger.mk "pp1" "Alice"]],
      fl.number = "BA100" ∧ fl.capacity = 2 ∧ fl.captain = "Ann" ∧
      fl.plane = "A320" ∧
      fl.passengers.Perm [Passenger.mk "pp1" "Alice", Passenger.mk "pp2" "Bob"] :=
  getAllFlights_expands_passenger_set
    (Dynamo.mk
      [[("number", AttrVal.S "BA100"), ("capacity", AttrVal.N 2),
        ("captain", AttrVal.S "Ann"), ("plane", AttrVal.S "A320"),
        ("passengers", AttrVal.SS ["pp2", "pp1"])]]
      [[("id", AttrVal.S "pp1"), ("name", AttrVal.S "Alice")],
       [("id", AttrVal.S "pp2"), ("name", AttrVal.S "Bob")]])
    [Flight.mk "BA100" 2 "Ann" "A320"
      [Passenger.mk "pp2" "Bob", Passenger.mk "pp1" "Alice"]]
    [("number", AttrVal.S "BA100"), ("capacity", AttrVal.N 2),
     ("captain", AttrVal.S "Ann"), ("plane", AttrVal.S "A320"),
     ("passengers", AttrVal.SS ["pp2", "pp1"])]
    (DynamoFlight.mk "BA100" ["pp2", "pp1"] 2 "Ann" "A320")
    "pp1" "pp2" (Passenger.mk "pp1" "Alice") (Passenger.mk "pp2" "Bob")
    rfl
    (by decide)
    rfl
    (by decide)
    (by decide)
    rfl
    rfl

end Datalayer
